import Mathlib

/-!
# Verification of the ISIC challenge scoring engine

A shallow embedding, in Lean 4, of the validation-and-metrics engine of the
`isic-challenge-scoring` repository, together with theorems settling the
specification claims about it.

The embedding covers:
* `src/Python/scoreP1.py` — segmentation pipeline: `loadImage` (value-domain
  normalization), `matchInputFile`, `scoreP1Image`, `scoreP1`;
* `src/isic_challenge_scoring/task3.py` — classification pipeline:
  `parseCsv`, `excludeRows`, `validateRows`, `sortRows`, `computeMetrics`.

Conventions of the embedding:
* A decoded single-channel (mode `'L'`) image is a `List (List Nat)` of
  uint8 samples (row-major 2-D grid); uint8 wrap-around is `% 256` where the
  source performs in-place numpy arithmetic.
* Python floats are modelled as `ℚ`; a Python `ZeroDivisionError` is an
  explicit error value checked before each division, in the order Python
  evaluates the divisions.
* Fallible functions return `Except`; the error type distinguishes the
  exception kinds the source can raise.
-/

namespace ISIC

/-- A decoded single-channel image: a 2-D grid of uint8 samples. -/
abbrev Grid := List (List Nat)

/-- Errors raised by the segmentation pipeline (`scoreP1.py`).  In the source
every one of these is a raised Python exception; `valueDomain`,
`shapeMismatch` and `noMatch` are raised explicitly (as bare `Exception`
with a message), `zeroDivision` and `indexError` are raised implicitly by
Python (`ZeroDivisionError` on float division by zero, `IndexError` on
`split('_')[1]` when the filename has no second token). -/
inductive P1Error
  | valueDomain
  | shapeMismatch
  | zeroDivision
  | noMatch
  | indexError
  deriving DecidableEq, Repr

/-- The static part of the message of each exception `scoreP1.py` raises
explicitly (`raise Exception('... %s ...')`, dynamic filename and shape
parts elided); `none` for the errors the Python interpreter raises
implicitly (`ZeroDivisionError` on float division by zero, `IndexError` on
a filename with no second `_`-token), which carry no crafted message naming
the offending artifact.  The decode and single-channel failures of
`loadImage` (lines 10–18) are likewise explicit message-carrying raises,
but they precede the decoded grid this embedding starts from. -/
def P1Error.pythonMessage : P1Error → Option String
  | .valueDomain => some "Image contains values other than 0 and 255."
  | .shapeMismatch => some "Image has dimensions ...; expected ...."
  | .noMatch => some "No matching submission image for: ..."
  | .zeroDivision => none
  | .indexError => none

/-- Whether a segmentation-pipeline error is of the reportable kind: raised
explicitly as the message-carrying exception, rather than implicitly by the
Python interpreter. -/
def P1Error.isReportable (e : P1Error) : Bool :=
  e.pythonMessage.isSome

/-- The distinct sample values of a grid (`set(np.unique(image))` in the
source), as a duplicate-free list in first-occurrence order.  The source
holds them in a Python `set`, which has no specified order. -/
def distinctValues (g : Grid) : List Nat :=
  g.flatten.dedup

/-- `imageValues <= {0, 255}` in the source. -/
def valuesSubset0255 (g : Grid) : Bool :=
  g.flatten.all (fun v => v == 0 || v == 255)

/-- One rescaled sample: `image /= highValue; image *= 255` on a uint8 numpy
array — floor division by `highValue`, then multiplication by 255 with
uint8 wrap-around. -/
def rescaleSample (highValue v : Nat) : Nat :=
  v / highValue * 255 % 256

/-- Lines 22–36 of `scoreP1.py`: the value-domain normalization applied to a
decoded single-channel image (`np.array(image)`).  Decoding and the
single-channel check (lines 10–18) are I/O glue over the PIL library and
happen before this grid exists.

`(imageValues - {0}).pop()` pops an arbitrary element of a Python set;
here the first element of the duplicate-free nonzero-value list is taken.
In the only branch the specification describes (exactly one distinct
non-zero value) that list is a singleton, so the choice is forced.

The re-verification in the source is `set(np.unique(image)) > {0, 255}` —
a proper-superset test, faithfully modelled by `properSuperset0255`. -/
def loadImage (g : Grid) : Except P1Error Grid :=
  if valuesSubset0255 g then
    -- Expected values
    .ok g
  else if (distinctValues g).length ≤ 2 then
    -- Binary image with high value other than 255 can be corrected
    match ((distinctValues g).filter (fun v => v ≠ 0)).head? with
    | some highValue =>
      let rescaled := g.map (fun row => row.map (rescaleSample highValue))
      if properSuperset0255 rescaled then
        .error .valueDomain
      else
        .ok rescaled
    | none => .error .valueDomain  -- unreachable: some value is outside {0,255}
  else
    .error .valueDomain
where
  /-- `set(np.unique(image)) > {0, 255}`: the distinct values form a proper
  superset of `{0, 255}`. -/
  properSuperset0255 (g' : Grid) : Bool :=
    decide (0 ∈ g'.flatten) && decide (255 ∈ g'.flatten) &&
      g'.flatten.any (fun v => v ≠ 0 && v ≠ 255)

/-- One reported metric: `{'name': ..., 'value': ...}`.  Python float values
are modelled as `ℚ`. -/
structure MetricRecord where
  name : String
  value : ℚ
  deriving DecidableEq, Repr

/-- One score record: `{'dataset': ..., 'metrics': [...]}`. -/
structure ScoreRecord where
  dataset : String
  metrics : List MetricRecord
  deriving DecidableEq, Repr

/-- Whether the first character list is an initial segment of the second. -/
def startsWithChars : List Char → List Char → Bool
  | [], _ => true
  | _ :: _, [] => false
  | a :: as, b :: bs => a == b && startsWithChars as bs

/-- Whether the first character list occurs contiguously in the second. -/
def infixChars (needle : List Char) : List Char → Bool
  | [] => needle.isEmpty
  | b :: bs => startsWithChars needle (b :: bs) || infixChars needle bs

/-- Python substring containment `needle in hay` on strings (contiguous
infix of the code-point sequence). -/
def strContains (hay needle : String) : Bool :=
  infixChars needle.data hay.data

/-- Python `s.split(sep)` for a one-character separator, on the character
list: split at every occurrence, keeping empty pieces (`''.split` gives
`['']`). -/
def splitChars (sep : Char) : List Char → List (List Char)
  | [] => [[]]
  | c :: cs =>
    match splitChars sep cs with
    | [] => [[]]
    | r :: rs => if c == sep then [] :: r :: rs else (c :: r) :: rs

/-- `truthFile.split('_')` as a list of strings. -/
def pySplitUnderscore (s : String) : List String :=
  (splitChars '_' s.data).map (fun cs => ⟨cs⟩)

/-- Lines 41–49 of `scoreP1.py`: `matchInputFile(truthFile, testDir)`.
`testDir` is the directory listing (`os.listdir`), in listing order; the
returned value is the matched filename (the source returns its joined
path).  `truthFile.split('_')[1]` is evaluated inside the loop, so a
filename with no second `_`-token raises `IndexError` only when the
directory is non-empty; an exhausted loop raises the no-match error. -/
def matchInputFile (truthFile : String) (testDir : List String) : Except P1Error String :=
  match testDir with
  | [] => .error .noMatch
  | testFile :: rest =>
    match (pySplitUnderscore truthFile).get? 1 with
    | none => .error .indexError
    | some truthFileId =>
      if strContains testFile truthFileId then .ok testFile
      else matchInputFile truthFile rest

/-- `image.shape[0:2]` of a 2-D numpy array: (row count, column count). -/
def shape (g : Grid) : Nat × Nat :=
  (g.length, (g.headD []).length)

/-- A grid is rectangular: every row has the column count given by `shape`.
numpy arrays are rectangular by construction. -/
def WellFormed (g : Grid) : Prop :=
  ∀ r ∈ g, r.length = (g.headD []).length

/-- Binarization of one sample: `image > 128` (strictly greater). -/
def binarizePixel (v : Nat) : Bool :=
  128 < v

/-- The four confusion counts of `scoreP1Image` over two equal-shaped grids:
`np.sum(np.logical_and(...))` over the aligned samples, after binarizing
both grids with `binarizePixel`.  Returned as (TP, TN, FP, FN). -/
def confusionCounts (truth test : Grid) : Nat × Nat × Nat × Nat :=
  let pairs := truth.flatten.zip test.flatten
  ( pairs.countP (fun p => binarizePixel p.1 && binarizePixel p.2)
  , pairs.countP (fun p => !binarizePixel p.1 && !binarizePixel p.2)
  , pairs.countP (fun p => !binarizePixel p.1 && binarizePixel p.2)
  , pairs.countP (fun p => binarizePixel p.1 && !binarizePixel p.2) )

/-- `np.sum(binaryImage)`: the number of positive samples of a grid. -/
def pixelSum (g : Grid) : Nat :=
  g.flatten.countP binarizePixel

/-- Lines 52–102 of `scoreP1.py`: `scoreP1Image(truthPath, testPath)`,
taking the two decoded images in place of their paths.  Both are first
passed through `loadImage`; a 2-D shape mismatch is an error; then the five
metrics are computed from the confusion counts.  Python evaluates the five
metric divisions in list order and raises `ZeroDivisionError` at the first
zero denominator, modelled by the guards below in the same order. -/
def scoreP1Image (truthImageIn testImageIn : Grid) : Except P1Error (List MetricRecord) := do
  let truthImage ← loadImage truthImageIn
  let testImage ← loadImage testImageIn
  if shape testImage ≠ shape truthImage then
    throw .shapeMismatch
  else
    let (tp, tn, fp, fn) := confusionCounts truthImage testImage
    let truthPixelSum := pixelSum truthImage
    let testPixelSum := pixelSum testImage
    let truePositive : ℚ := tp
    let trueNegative : ℚ := tn
    let falsePositive : ℚ := fp
    let falseNegative : ℚ := fn
    if truePositive + trueNegative + falsePositive + falseNegative = 0 then
      throw .zeroDivision
    else if truePositive + falseNegative + falsePositive = 0 then
      throw .zeroDivision
    else if (truthPixelSum : ℚ) + (testPixelSum : ℚ) = 0 then
      throw .zeroDivision
    else if truePositive + falseNegative = 0 then
      throw .zeroDivision
    else if trueNegative + falsePositive = 0 then
      throw .zeroDivision
    else
      return [
        ⟨"accuracy", (truePositive + trueNegative) /
          (truePositive + trueNegative + falsePositive + falseNegative)⟩,
        ⟨"jaccard", truePositive / (truePositive + falseNegative + falsePositive)⟩,
        ⟨"dice", 2 * truePositive / ((truthPixelSum : ℚ) + (testPixelSum : ℚ))⟩,
        ⟨"sensitivity", truePositive / (truePositive + falseNegative)⟩,
        ⟨"specificity", trueNegative / (trueNegative + falsePositive)⟩ ]

/-- Python string `<=`: lexicographic comparison of the code-point
sequences. -/
def lexLe : List Char → List Char → Bool
  | [], _ => true
  | _ :: _, [] => false
  | a :: as, b :: bs =>
    if a.val < b.val then true
    else if a.val = b.val then lexLe as bs
    else false

/-- Python `sorted` on strings: stable sort by code-point order, here as
insertion sort on an association list keyed by filename. -/
def insertSortedBy (key : α → String) (x : α) : List α → List α
  | [] => [x]
  | y :: ys =>
    if lexLe (key x).data (key y).data then x :: y :: ys
    else y :: insertSortedBy key x ys

/-- Sort an association list by its string keys (Python `sorted`). -/
def sortByKey (key : α → String) : List α → List α
  | [] => []
  | x :: xs => insertSortedBy key x (sortByKey key xs)

/-- Rejoin split pieces with `_` between them. -/
def joinUnderscore : List (List Char) → List Char
  | [] => []
  | [cs] => cs
  | cs :: rest => cs ++ '_' :: joinUnderscore rest

/-- `truthFile.rsplit('_', 1)[0]`: everything before the last `_`, or the
whole string when it holds no `_`. -/
def rsplitDataset (s : String) : String :=
  match (splitChars '_' s.data).dropLast with
  | [] => s
  | parts => ⟨joinUnderscore parts⟩

/-- Lines 105–126 of `scoreP1.py`: `scoreP1(truthDir, testDir)`.  Each
directory is a listing-ordered association list of filename → decoded
image.  Truth filenames are visited in Python `sorted` order; each is
matched against the test listing, scored, and appended with the dataset
name `truthFile.rsplit('_', 1)[0]`.  Any per-image failure aborts the whole
run (the source re-raises). -/
def scoreP1 (truthDir testDir : List (String × Grid)) : Except P1Error (List ScoreRecord) :=
  (sortByKey Prod.fst truthDir).mapM (fun entry => do
    let testFile ← matchInputFile entry.1 (testDir.map Prod.fst)
    let metrics ← scoreP1Image entry.2
      (((testDir.find? (fun e => e.1 == testFile)).map Prod.snd).getD [])
    return ⟨rsplitDataset entry.1, metrics⟩)

/-! ## Classification pipeline (`task3.py`) -/

/-- Errors raised by the classification pipeline.  `score msg` is the
reportable `ScoreException(msg)`; `pandasValueError msg` is the `ValueError`
pandas raises out of `set_index(..., verify_integrity=True)` on duplicate
keys, which is not a `ScoreException`.  Dynamic parts of the messages
(offending column and identifier lists) are elided. -/
inductive CsvError
  | score (msg : String)
  | pandasValueError (msg : String)
  deriving DecidableEq, Repr

/-- Whether an error is the reportable exception kind (`ScoreException`). -/
def CsvError.isScore : CsvError → Bool
  | .score _ => true
  | .pandasValueError _ => false

/-- One cell of a DataFrame produced by `pd.read_csv`: missing (`NaN`),
numeric (int64/float64 columns are both modelled as `ℚ`), or textual
(a cell forcing `object` dtype on its column). -/
inductive Cell
  | na
  | num (q : ℚ)
  | text (s : String)
  deriving DecidableEq, Repr

/-- `pd.isnull` on one cell. -/
def Cell.isNa : Cell → Bool
  | .na => true
  | _ => false

/-- Whether a cell forces a non-`float64` column dtype. -/
def Cell.isText : Cell → Bool
  | .text _ => true
  | _ => false

/-- `lambda x: x < 0.0 or x > 1.0` on one cell; comparisons with `NaN` are
false in Python (and the guards before the range check ensure no `na` or
`text` cell reaches it). -/
def Cell.outOfRange : Cell → Bool
  | .num q => decide (q < 0 ∨ 1 < q)
  | _ => false

/-- The DataFrame delivered by `pd.read_csv(csvFileStream, header=0)`:
named columns over rectangular rows.  `read_csv` never produces duplicate
column names (it mangles them), which the theorems record as a `Nodup`
hypothesis where it matters. -/
structure RawFrame where
  columns : List String
  rows : List (List Cell)
  deriving DecidableEq, Repr

/-- The cell of a row at a column position; a row shorter than the header is
padded with `NaN` by `read_csv`. -/
def cellAt (colIdx : Nat) (row : List Cell) : Cell :=
  row.getD colIdx .na

/-- Line 37 of `task3.py`: the canonical category order. -/
def CATEGORIES : List String :=
  ["MEL", "NV", "BCC", "AKIEC", "BKL", "DF", "VASC"]

/-- Line 38 of `task3.py`: identifiers excluded from both tables. -/
def EXCLUDE_LABELS : List String :=
  ["ISIC_0035068"]

/-- A probability DataFrame after `set_index('image')`: the index (image
identifiers), the column names, and the rectangular data rows. -/
structure Frame where
  index : List Cell
  columns : List String
  data : List (List Cell)
  deriving DecidableEq, Repr

/-- Lines 41–85 of `task3.py`: `parseCsv`, from the `read_csv` result on.
The checks run in source order: `image` column present; `set_index` with
`verify_integrity=True` (duplicate keys raise the pandas `ValueError`, not
a `ScoreException`); missing label columns; extra label columns; reindex to
the canonical `CATEGORIES` order; missing values; non-`float64` column
dtypes (a column is non-float exactly when it holds a textual cell); values
outside `[0.0, 1.0]`. -/
def parseCsv (raw : RawFrame) : Except CsvError Frame :=
  if ¬ raw.columns.contains "image" then
    .error (.score "Missing column in CSV: image.")
  else
    let index := raw.rows.map (cellAt (raw.columns.indexOf "image"))
    if ¬ index.Nodup then
      .error (.pandasValueError "Index has duplicate keys.")
    else
      let cols := raw.columns.erase "image"
      if CATEGORIES.filter (fun c => ¬ cols.contains c) ≠ [] then
        .error (.score "Missing columns in CSV.")
      else if cols.filter (fun c => ¬ CATEGORIES.contains c) ≠ [] then
        .error (.score "Extra columns in CSV.")
      else
        -- sort by the order in CATEGORIES
        let data := raw.rows.map (fun r =>
          CATEGORIES.map (fun c => cellAt (raw.columns.indexOf c) r))
        if data.any (fun r => r.any Cell.isNa) then
          .error (.score "Missing values in CSV.")
        else if data.any (fun r => r.any Cell.isText) then
          .error (.score "CSV contains non-floating-point values.")
        else if data.any (fun r => r.any Cell.outOfRange) then
          .error (.score "Values in CSV are outside the interval.")
        else
          .ok ⟨index, CATEGORIES, data⟩

/-- A parsed probability table as consumed by `computeMetrics`: image
identifier (a string, unique by the `parseCsv` invariant) to the seven
category probabilities in canonical column order. -/
abbrev ProbTable := List (String × List ℚ)

/-- Lines 88–90 of `task3.py`: `excludeRows` — drop the rows whose label is
in `labels`, tolerating absence (`errors='ignore'`). -/
def excludeRows (probabilities : ProbTable) (labels : List String) : ProbTable :=
  probabilities.filter (fun r => ¬ labels.contains r.1)

/-- Lines 93–106 of `task3.py`: `validateRows` — fail on truth identifiers
absent from the prediction table, then on prediction identifiers absent
from the truth table. -/
def validateRows (truthProbabilities predictionProbabilities : ProbTable) :
    Except CsvError Unit :=
  let missingImages := (truthProbabilities.map Prod.fst).filter
    (fun i => ¬ (predictionProbabilities.map Prod.fst).contains i)
  if missingImages ≠ [] then
    .error (.score "Missing images in CSV.")
  else
    let extraImages := (predictionProbabilities.map Prod.fst).filter
      (fun i => ¬ (truthProbabilities.map Prod.fst).contains i)
    if extraImages ≠ [] then
      .error (.score "Extra images in CSV.")
    else
      .ok ()

/-- Lines 109–111 of `task3.py`: `sortRows` — sort rows by identifier
ascending. -/
def sortRows (probabilities : ProbTable) : ProbTable :=
  sortByKey Prod.fst probabilities

/-- The column of one category (by canonical position) of a table:
`probabilities[category]`. -/
def categoryColumn (probabilities : ProbTable) (j : Nat) : List ℚ :=
  probabilities.map (fun r => r.2.getD j 0)

/-- `series.gt(0.5)`: threshold a probability series into a boolean one. -/
def gtHalf (column : List ℚ) : List Bool :=
  column.map (fun q => decide ((1 : ℚ) / 2 < q))

/-- The functions of the `metrics` module used by `computeMetrics`.  That
module is not part of the sources under review, so `computeMetricsWith` is
parameterized by an arbitrary implementation of its interface; `specMetrics`
below instantiates it from the specification's formulas. -/
structure MetricsImpl where
  balancedMulticlassAccuracy : ProbTable → ProbTable → ℚ
  binaryAccuracy : List Bool → List Bool → ℚ
  binarySensitivity : List Bool → List Bool → ℚ
  binarySpecificity : List Bool → List Bool → ℚ
  binaryF1 : List Bool → List Bool → ℚ
  binaryPpv : List Bool → List Bool → ℚ
  binaryNpv : List Bool → List Bool → ℚ
  auc : List ℚ → List ℚ → ℚ
  aucAboveSensitivity : List ℚ → List ℚ → ℚ → ℚ

/-- Lines 114–186 of `task3.py`: `computeMetrics` on two parsed tables —
exclude the hardcoded labels from both, validate row alignment, sort both
by identifier, then emit the aggregate record followed by one record per
category in canonical order, each with its eight metrics in fixed order. -/
def computeMetricsWith (m : MetricsImpl) (truthIn predictionIn : ProbTable) :
    Except CsvError (List ScoreRecord) := do
  let _ ← validateRows (excludeRows truthIn EXCLUDE_LABELS)
    (excludeRows predictionIn EXCLUDE_LABELS)
  return ⟨"aggregate",
      [⟨"balanced_accuracy",
        m.balancedMulticlassAccuracy (sortRows (excludeRows truthIn EXCLUDE_LABELS))
          (sortRows (excludeRows predictionIn EXCLUDE_LABELS))⟩]⟩ ::
    CATEGORIES.enum.map (fun e =>
      let truthCategory := categoryColumn
        (sortRows (excludeRows truthIn EXCLUDE_LABELS)) e.1
      let predictionCategory := categoryColumn
        (sortRows (excludeRows predictionIn EXCLUDE_LABELS)) e.1
      let truthBinary := gtHalf truthCategory
      let predictionBinary := gtHalf predictionCategory
      ⟨e.2,
        [ ⟨"accuracy", m.binaryAccuracy truthBinary predictionBinary⟩,
          ⟨"sensitivity", m.binarySensitivity truthBinary predictionBinary⟩,
          ⟨"specificity", m.binarySpecificity truthBinary predictionBinary⟩,
          ⟨"f1_score", m.binaryF1 truthBinary predictionBinary⟩,
          ⟨"ppv", m.binaryPpv truthBinary predictionBinary⟩,
          ⟨"npv", m.binaryNpv truthBinary predictionBinary⟩,
          ⟨"auc", m.auc truthCategory predictionCategory⟩,
          ⟨"auc_sens_80",
            m.aucAboveSensitivity truthCategory predictionCategory (4 / 5)⟩ ]⟩)

/-- Confusion counts (TP, TN, FP, FN) of two aligned boolean series. -/
def boolConfusion (truth test : List Bool) : Nat × Nat × Nat × Nat :=
  let pairs := truth.zip test
  ( pairs.countP (fun p => p.1 && p.2)
  , pairs.countP (fun p => !p.1 && !p.2)
  , pairs.countP (fun p => !p.1 && p.2)
  , pairs.countP (fun p => p.1 && !p.2) )

/-- Modelled from the spec: the argmax label index of a probability row
(`§4.6`); the tie-break (lowest index) is the explicit choice the spec's
design notes call for, the source's `metrics` module being absent. -/
def argmaxIdx (row : List ℚ) : Nat :=
  (row.enum.foldl (fun best e => if (row.getD best 0) < e.2 then e.1 else best) 0)

/-- Modelled from the spec: the ROC curve of binary labels against scores
(`§9`: sorted (score, label) pairs and an accumulation pass), as the list of
(false-positive rate, true-positive rate) points for thresholds descending
through the distinct scores. -/
def rocPoints (labels : List Bool) (scores : List ℚ) : List (ℚ × ℚ) :=
  let pairs := scores.zip labels
  let posTotal := (labels.countP id : ℚ)
  let negTotal := (labels.countP (fun b => !b) : ℚ)
  let thresholds := (pairs.map Prod.fst).dedup.mergeSort (fun a b => decide (b ≤ a))
  (0, 0) :: thresholds.map (fun t =>
    let hits := pairs.filter (fun p => t ≤ p.1)
    ( (if negTotal = 0 then 0 else (hits.countP (fun p => !p.2) : ℚ) / negTotal)
    , (if posTotal = 0 then 0 else (hits.countP (fun p => p.2) : ℚ) / posTotal) ))

/-- Modelled from the spec: trapezoidal integral of a piecewise-linear curve
given by successive points. -/
def trapezoidArea : List (ℚ × ℚ) → ℚ
  | p :: q :: rest => (q.1 - p.1) * (p.2 + q.2) / 2 + trapezoidArea (q :: rest)
  | _ => 0

/-- Modelled from the spec (`§4.6`, the `metrics` module being absent from
the sources): the metric formulas used by `computeMetrics`.  Binary metrics
are ratios of the confusion counts; `balancedMulticlassAccuracy` averages
per-class argmax recall; `auc` is the trapezoidal area under the ROC curve
of the truth column binarized at `> 0.5` against the prediction scores;
`aucAboveSensitivity` integrates the part of the curve above the given
sensitivity, normalized by the maximal area of that region.  In `ℚ` a
division by zero yields `0` where a float would be non-finite (`§3`). -/
def specMetrics : MetricsImpl where
  balancedMulticlassAccuracy := fun truth prediction =>
    let truthClasses := truth.map (fun r => argmaxIdx r.2)
    let predictionClasses := prediction.map (fun r => argmaxIdx r.2)
    let pairs := truthClasses.zip predictionClasses
    let classRecall := fun j =>
      let inClass := pairs.filter (fun p => p.1 = j)
      ((inClass.countP (fun p => p.2 == p.1) : ℚ) / (inClass.length : ℚ))
    ((List.range CATEGORIES.length).map classRecall).sum / (CATEGORIES.length : ℚ)
  binaryAccuracy := fun t p =>
    let (tp, tn, fp, fn) := boolConfusion t p
    ((tp : ℚ) + tn) / ((tp : ℚ) + tn + fp + fn)
  binarySensitivity := fun t p =>
    let (tp, _, _, fn) := boolConfusion t p
    (tp : ℚ) / ((tp : ℚ) + fn)
  binarySpecificity := fun t p =>
    let (_, tn, fp, _) := boolConfusion t p
    (tn : ℚ) / ((tn : ℚ) + fp)
  binaryF1 := fun t p =>
    let (tp, _, fp, fn) := boolConfusion t p
    (2 * tp : ℚ) / ((2 * tp : ℚ) + fp + fn)
  binaryPpv := fun t p =>
    let (tp, _, fp, _) := boolConfusion t p
    (tp : ℚ) / ((tp : ℚ) + fp)
  binaryNpv := fun t p =>
    let (_, tn, _, fn) := boolConfusion t p
    (tn : ℚ) / ((tn : ℚ) + fn)
  auc := fun truthColumn predictionColumn =>
    trapezoidArea (rocPoints (gtHalf truthColumn) predictionColumn)
  aucAboveSensitivity := fun truthColumn predictionColumn sens =>
    let pts := (rocPoints (gtHalf truthColumn) predictionColumn).map
      (fun p => (p.1, max (p.2 - sens) 0))
    trapezoidArea pts / (1 - sens)

/-- A degenerate instantiation of the `metrics` interface (every metric 0),
used to witness record-order facts without evaluating metric formulas. -/
def constMetrics : MetricsImpl where
  balancedMulticlassAccuracy := fun _ _ => 0
  binaryAccuracy := fun _ _ => 0
  binarySensitivity := fun _ _ => 0
  binarySpecificity := fun _ _ => 0
  binaryF1 := fun _ _ => 0
  binaryPpv := fun _ _ => 0
  binaryNpv := fun _ _ => 0
  auc := fun _ _ => 0
  aucAboveSensitivity := fun _ _ _ => 0

/-- The score list `computeMetrics` produces on two empty tables under
`constMetrics`. -/
def constScores : List ScoreRecord :=
  ⟨"aggregate", [⟨"balanced_accuracy", 0⟩]⟩ ::
    CATEGORIES.map (fun c =>
      ⟨c, [⟨"accuracy", 0⟩, ⟨"sensitivity", 0⟩, ⟨"specificity", 0⟩,
        ⟨"f1_score", 0⟩, ⟨"ppv", 0⟩, ⟨"npv", 0⟩, ⟨"auc", 0⟩, ⟨"auc_sens_80", 0⟩]⟩)

/-! ## Helper lemmas -/

/-- A grid whose values all lie in `{0, 255}` takes the first branch of
`loadImage` and is returned unchanged. -/
lemma loadImage_subset_id (g : Grid) (h : valuesSubset0255 g = true) :
    loadImage g = .ok g := by
  unfold loadImage
  simp [h]

/-- Every sample of a grid whose distinct nonzero values are exactly `[V]`
is `0` or `V`. -/
lemma sample_eq_zero_or_highValue (g : Grid) (V : Nat)
    (h : (distinctValues g).filter (fun v => decide (v ≠ 0)) = [V]) :
    ∀ v ∈ g.flatten, v = 0 ∨ v = V := by
  intro v hv
  have hvd : v ∈ distinctValues g := by
    simpa [distinctValues, List.mem_dedup] using hv
  by_cases hz : v = 0
  · exact Or.inl hz
  · have : v ∈ (distinctValues g).filter (fun v => decide (v ≠ 0)) :=
      List.mem_filter.mpr ⟨hvd, by simpa using hz⟩
    rw [h] at this
    simp only [List.mem_singleton] at this
    exact Or.inr this

/-- A duplicate-free list whose nonzero elements are exactly `[V]` has at
most two elements. -/
lemma dedup_length_le_two (l : List Nat) (hnd : l.Nodup) (V : Nat)
    (h : l.filter (fun v => decide (v ≠ 0)) = [V]) :
    l.length ≤ 2 := by
  have hlen := List.length_eq_countP_add_countP (fun v => decide (v ≠ 0)) l
  have h1 : l.countP (fun v => decide (v ≠ 0)) = 1 := by
    rw [List.countP_eq_length_filter, h]
    rfl
  have h2 : l.countP (fun a => decide ¬(decide (a ≠ 0) = true)) = l.count 0 := by
    rw [List.count_eq_countP]
    apply List.countP_congr
    intro a _
    by_cases ha : a = 0
    · subst ha
      simp
    · simp [ha]
  have h3 : l.count 0 ≤ 1 := List.nodup_iff_count_le_one.mp hnd 0
  omega

/-- Flattening a grid mapped samplewise is mapping the flattened grid. -/
lemma flatten_map_map (f : Nat → Nat) (g : Grid) :
    (g.map (fun row => row.map f)).flatten = g.flatten.map f := by
  induction g with
  | nil => rfl
  | cons r rs ih => simp only [List.map_cons, List.flatten_cons, List.map_append, ih]

/-- A duplicate-free list of naturals drawn from a two-element set has at
most two elements. -/
lemma nodup_length_le_two (l : List Nat) (hnd : l.Nodup) (a b : Nat)
    (h : ∀ x ∈ l, x = a ∨ x = b) : l.length ≤ 2 := by
  have hsub : l ⊆ [a, b] := by
    intro x hx
    rcases h x hx with rfl | rfl <;> simp
  have := (hnd.subperm hsub).length_le
  simpa using this

/-- Rescaling sends `0` to `0` and the high value to `255`. -/
lemma rescaleSample_cases (V v : Nat) (hV : V ≠ 0) (h : v = 0 ∨ v = V) :
    rescaleSample V v = 0 ∨ rescaleSample V v = 255 := by
  rcases h with h | h <;> subst h
  · left
    simp [rescaleSample]
  · right
    simp [rescaleSample, Nat.div_self (Nat.pos_of_ne_zero hV)]

/-- Claim C1: `loadImage` applies the normalization policy as specified —
values already in `{0,255}` are accepted as-is; with exactly one distinct
non-zero value `V`, every sample is divided by `V` and multiplied by `255`
in integer arithmetic and the result (provably a subset of `{0,255}`, so
re-verification succeeds) is returned; more than two distinct values fail
with the value-domain error. -/
theorem claim_C1_loadImage_policy (g : Grid) :
    (valuesSubset0255 g = true → loadImage g = .ok g) ∧
    (∀ V, valuesSubset0255 g = false →
      (distinctValues g).filter (fun v => decide (v ≠ 0)) = [V] →
      loadImage g = .ok (g.map (fun row => row.map (rescaleSample V))) ∧
      valuesSubset0255 (g.map (fun row => row.map (rescaleSample V))) = true) ∧
    (2 < (distinctValues g).length → loadImage g = .error .valueDomain) := by
  refine ⟨loadImage_subset_id g, ?_, ?_⟩
  · intro V hsub hV
    have hVne : V ≠ 0 := by
      have : V ∈ (distinctValues g).filter (fun v => decide (v ≠ 0)) := by
        rw [hV]
        simp
      simpa using (List.mem_filter.mp this).2
    have hcases := sample_eq_zero_or_highValue g V hV
    have hlen : (distinctValues g).length ≤ 2 :=
      dedup_length_le_two _ (List.nodup_dedup _) V hV
    have hressub : valuesSubset0255 (g.map (fun row => row.map (rescaleSample V))) = true := by
      unfold valuesSubset0255
      rw [flatten_map_map]
      rw [List.all_map]
      rw [List.all_eq_true]
      intro v hv
      rcases rescaleSample_cases V v hVne (hcases v hv) with h | h <;>
        simp [Function.comp, h]
    refine ⟨?_, hressub⟩
    unfold loadImage
    rw [hsub]
    simp only [Bool.false_eq_true, if_false, hlen, if_pos, hV]
    simp only [List.head?_cons]
    have hnotsup : loadImage.properSuperset0255
        (g.map (fun row => row.map (rescaleSample V))) = false := by
      unfold loadImage.properSuperset0255
      have hany : (g.map (fun row => row.map (rescaleSample V))).flatten.any
          (fun v => decide (v ≠ 0) && decide (v ≠ 255)) = false := by
        rw [List.any_eq_false]
        intro v hv
        have hvmem : v ∈ g.flatten.map (rescaleSample V) := by
          rwa [flatten_map_map] at hv
        obtain ⟨w, hw, rfl⟩ := List.mem_map.mp hvmem
        rcases rescaleSample_cases V w hVne (hcases w hw) with h | h <;> simp [h]
      rw [hany]
      simp
    rw [hnotsup]
    simp
  · intro hgt
    have hsub : valuesSubset0255 g = false := by
      by_contra hs
      have hs' : valuesSubset0255 g = true := by
        revert hs
        cases valuesSubset0255 g <;> simp
      have hmem : ∀ x ∈ distinctValues g, x = 0 ∨ x = 255 := by
        intro x hx
        have hxf : x ∈ g.flatten := by
          have := List.mem_dedup.mp hx
          simpa [distinctValues] using this
        have := (List.all_eq_true.mp hs') x hxf
        revert this
        by_cases h0 : x = 0 <;> by_cases h255 : x = 255 <;> simp [h0, h255]
      have := nodup_length_le_two _ (List.nodup_dedup _) 0 255 hmem
      have hlen : (distinctValues g).length ≤ 2 := by
        simpa [distinctValues] using this
      omega
    unfold loadImage distinctValues
    unfold distinctValues at hgt
    simp only [hsub, Bool.false_eq_true, if_false]
    rw [if_neg (by omega)]

/-- Witness for claim C1: the three cases of the policy at concrete grids —
`[[0, 255]]` is accepted as-is, `[[0, 7]]` is rescaled by its single
non-zero value `7` to `[[0, 255]]` (which re-verifies as a subset of
`{0, 255}`), and `[[1, 2, 3]]` fails with the value-domain error. -/
theorem claim_C1_witness :
    (valuesSubset0255 [[0, 255]] = true ∧ loadImage [[0, 255]] = .ok [[0, 255]]) ∧
    (valuesSubset0255 [[0, 7]] = false ∧ loadImage [[0, 7]] = .ok [[0, 255]] ∧
      valuesSubset0255 [[0, 255]] = true) ∧
    (2 < (distinctValues [[1, 2, 3]]).length ∧
      loadImage [[1, 2, 3]] = .error .valueDomain) := by
  obtain ⟨h1, h2⟩ := (claim_C1_loadImage_policy [[0, 7]]).2.1 7 (by decide) (by decide)
  exact ⟨⟨by decide, (claim_C1_loadImage_policy [[0, 255]]).1 (by decide)⟩,
    ⟨by decide, h1, h2⟩,
    ⟨by decide, (claim_C1_loadImage_policy [[1, 2, 3]]).2.2 (by decide)⟩⟩

/-- Claim C9: for every image whose set of distinct sample values is a
subset of `{0, 255}`, normalization is the identity — `loadImage` returns
the decoded grid with every sample unchanged. -/
theorem claim_C9_normalization_identity (g : Grid)
    (h : valuesSubset0255 g = true) : loadImage g = .ok g :=
  loadImage_subset_id g h

/-- Witness for claim C9 at the concrete grid `[[0], [255]]`. -/
theorem claim_C9_witness : valuesSubset0255 [[0], [255]] = true ∧
    loadImage [[0], [255]] = .ok [[0], [255]] :=
  ⟨by decide, claim_C9_normalization_identity [[0], [255]] (by decide)⟩

/-- Binding a successful `Except` computation applies the continuation. -/
lemma except_bind_ok {ε α β : Type} (a : α) (f : α → Except ε β) :
    ((Except.ok a : Except ε α) >>= f) = f a := rfl

/-- The four confusion predicates partition every sample pair, so the four
counts sum to the pair count. -/
lemma countP_confusion_split (l : List (Nat × Nat)) :
    l.countP (fun p => binarizePixel p.1 && binarizePixel p.2)
      + l.countP (fun p => !binarizePixel p.1 && !binarizePixel p.2)
      + l.countP (fun p => !binarizePixel p.1 && binarizePixel p.2)
      + l.countP (fun p => binarizePixel p.1 && !binarizePixel p.2)
      = l.length := by
  induction l with
  | nil => rfl
  | cons a l ih =>
    simp only [List.countP_cons, List.length_cons]
    cases hb1 : binarizePixel a.1 <;> cases hb2 : binarizePixel a.2 <;>
      simp [hb1, hb2] <;> omega

/-- The flattened length of a grid with constant row length. -/
lemma flatten_length_eq (g : Grid) (c : Nat) (h : ∀ r ∈ g, r.length = c) :
    g.flatten.length = g.length * c := by
  induction g with
  | nil => simp
  | cons r rs ih =>
    simp only [List.flatten_cons, List.length_append, List.length_cons]
    rw [h r (by simp), ih (fun x hx => h x (by simp [hx]))]
    ring

/-- Equal-shaped rectangular grids have flattened samples in bijection. -/
lemma flatten_length_of_shape_eq (truth test : Grid)
    (hwt : WellFormed truth) (hwu : WellFormed test)
    (hsh : shape truth = shape test) :
    truth.flatten.length = test.flatten.length := by
  have h1 := flatten_length_eq truth ((truth.headD []).length) hwt
  have h2 := flatten_length_eq test ((test.headD []).length) hwu
  have hl : truth.length = test.length := congrArg Prod.fst hsh
  have hc : (truth.headD []).length = (test.headD []).length := congrArg Prod.snd hsh
  rw [h1, h2, hl, hc]

/-- Claim C5: a 2-D shape mismatch between two (normalized, rectangular)
grids makes `scoreP1Image` fail with the shape-mismatch error before any
metric is computed, and a sample is classified positive exactly when its
value strictly exceeds 128 — so a sample of exactly 128 is negative. -/
theorem claim_C5_shape_then_binarize (truth test : Grid)
    (htruth : valuesSubset0255 truth = true) (htest : valuesSubset0255 test = true)
    (hne : shape test ≠ shape truth) :
    scoreP1Image truth test = .error .shapeMismatch ∧
    (∀ v, binarizePixel v = true ↔ 128 < v) ∧
    binarizePixel 128 = false := by
  refine ⟨?_, fun v => by simp [binarizePixel], by decide⟩
  unfold scoreP1Image
  rw [loadImage_subset_id truth htruth, except_bind_ok,
    loadImage_subset_id test htest, except_bind_ok]
  rw [if_pos hne]
  rfl

/-- Witness for claim C5 at the concrete normalized grids `[[0]]` and
`[[0], [0]]`, whose shapes (1, 1) and (2, 1) differ, and at the edge
sample value 128. -/
theorem claim_C5_witness :
    shape ([[0], [0]] : Grid) ≠ shape ([[0]] : Grid) ∧
    scoreP1Image [[0]] [[0], [0]] = .error .shapeMismatch ∧
    binarizePixel 128 = false := by
  have h := claim_C5_shape_then_binarize [[0]] [[0], [0]]
    (by decide) (by decide) (by decide)
  exact ⟨by decide, h.1, h.2.2⟩

/-- Claim C6: over two equal-shaped rectangular grids, the four confusion
counts of `scoreP1Image` are non-negative and sum to the total number of
samples of one grid. -/
theorem claim_C6_confusion_partition (truth test : Grid)
    (hwt : WellFormed truth) (hwu : WellFormed test)
    (hsh : shape truth = shape test) :
    (confusionCounts truth test).1 + (confusionCounts truth test).2.1 +
      (confusionCounts truth test).2.2.1 + (confusionCounts truth test).2.2.2
      = truth.flatten.length ∧
    truth.flatten.length = test.flatten.length ∧
    0 ≤ (confusionCounts truth test).1 ∧ 0 ≤ (confusionCounts truth test).2.1 ∧
    0 ≤ (confusionCounts truth test).2.2.1 ∧
    0 ≤ (confusionCounts truth test).2.2.2 := by
  have hflat := flatten_length_of_shape_eq truth test hwt hwu hsh
  refine ⟨?_, hflat, Nat.zero_le _, Nat.zero_le _, Nat.zero_le _, Nat.zero_le _⟩
  unfold confusionCounts
  have hzip : (truth.flatten.zip test.flatten).length = truth.flatten.length := by
    rw [List.length_zip, hflat]
    exact Nat.min_self _
  rw [← hzip]
  exact countP_confusion_split _

/-- Witness for claim C6 at the specification's own 2×2 example grids
(truth `[[255,0],[0,255]]`, submission `[[0,255],[255,0]]`, four
samples). -/
theorem claim_C6_witness :
    WellFormed [[255, 0], [0, 255]] ∧ WellFormed [[0, 255], [255, 0]] ∧
    shape [[255, 0], [0, 255]] = shape [[0, 255], [255, 0]] ∧
    (confusionCounts [[255, 0], [0, 255]] [[0, 255], [255, 0]]).1 +
      (confusionCounts [[255, 0], [0, 255]] [[0, 255], [255, 0]]).2.1 +
      (confusionCounts [[255, 0], [0, 255]] [[0, 255], [255, 0]]).2.2.1 +
      (confusionCounts [[255, 0], [0, 255]] [[0, 255], [255, 0]]).2.2.2
      = ([[255, 0], [0, 255]] : Grid).flatten.length := by
  have hwt : WellFormed [[255, 0], [0, 255]] := by unfold WellFormed; decide
  have hwu : WellFormed [[0, 255], [255, 0]] := by unfold WellFormed; decide
  exact ⟨hwt, hwu, by decide,
    (claim_C6_confusion_partition _ _ hwt hwu (by decide)).1⟩

/-- Zipping a list with itself pairs each element with itself. -/
lemma zip_self (l : List α) : l.zip l = l.map (fun a => (a, a)) := by
  induction l with
  | nil => rfl
  | cons a l ih => simp [List.zip_cons_cons, ih]

/-- The confusion counts of a grid against itself: all positives are true
positives, all negatives true negatives, and there are no false counts. -/
lemma confusionCounts_self (g : Grid) :
    confusionCounts g g =
      (g.flatten.countP binarizePixel,
       g.flatten.countP (fun v => !binarizePixel v), 0, 0) := by
  unfold confusionCounts
  rw [zip_self]
  simp only [List.countP_map]
  refine congrArg₂ Prod.mk ?_ (congrArg₂ Prod.mk ?_ (congrArg₂ Prod.mk ?_ ?_))
  · apply List.countP_congr
    intro a _
    simp [Function.comp]
  · apply List.countP_congr
    intro a _
    simp [Function.comp]
  · rw [List.countP_eq_zero]
    intro a _
    simp [Function.comp]
  · rw [List.countP_eq_zero]
    intro a _
    simp [Function.comp]

/-- Counterexample to claim C3 as stated: scoring the normalized all-zero
grid `[[0]]` against itself does not yield metrics of 1.0 — the jaccard
denominator TP + FN + FP is zero, so the computation fails with Python's
`ZeroDivisionError`. -/
theorem claim_C3_counterexample :
    scoreP1Image [[0]] [[0]] = .error .zeroDivision := by
  have h1 : ([[0]] : Grid).flatten.countP binarizePixel = 0 := by decide
  have h2 : ([[0]] : Grid).flatten.countP (fun v => !binarizePixel v) = 1 := by decide
  unfold scoreP1Image
  rw [loadImage_subset_id [[0]] (by decide), except_bind_ok, except_bind_ok]
  rw [if_neg (by simp)]
  rw [confusionCounts_self, h1, h2]
  dsimp only
  rw [if_neg (by norm_num), if_pos (by norm_num)]
  rfl

/-- Scoring a normalized grid with at least one positive and one negative
sample against itself yields all five metrics equal to one. -/
lemma scoreP1Image_self_ones (g : Grid)
    (hn : valuesSubset0255 g = true)
    (hpos : 255 ∈ g.flatten) (hneg : 0 ∈ g.flatten) :
    scoreP1Image g g = .ok
      [⟨"accuracy", 1⟩, ⟨"jaccard", 1⟩, ⟨"dice", 1⟩,
       ⟨"sensitivity", 1⟩, ⟨"specificity", 1⟩] := by
  have htp : 0 < g.flatten.countP binarizePixel :=
    List.countP_pos_iff.mpr ⟨255, hpos, by decide⟩
  have htn : 0 < g.flatten.countP (fun v => !binarizePixel v) :=
    List.countP_pos_iff.mpr ⟨0, hneg, by decide⟩
  set tp := g.flatten.countP binarizePixel with htpdef
  set tn := g.flatten.countP (fun v => !binarizePixel v) with htndef
  have htpq : (0 : ℚ) < (tp : ℚ) := by exact_mod_cast htp
  have htnq : (0 : ℚ) < (tn : ℚ) := by exact_mod_cast htn
  unfold scoreP1Image
  rw [loadImage_subset_id g hn, except_bind_ok, except_bind_ok]
  rw [if_neg (by simp)]
  rw [confusionCounts_self]
  simp only [Nat.cast_zero]
  have hps : pixelSum g = tp := rfl
  rw [hps]
  rw [if_neg (by positivity), if_neg (by positivity), if_neg (by positivity),
    if_neg (by positivity), if_neg (by positivity)]
  have e1 : (tp : ℚ) + tn + 0 + 0 = (tp : ℚ) + tn := by ring
  have hacc : ((tp : ℚ) + tn) / ((tp : ℚ) + tn + 0 + 0) = 1 := by
    rw [e1]
    exact div_self (by positivity)
  have hjac : (tp : ℚ) / ((tp : ℚ) + 0 + 0) = 1 := by
    rw [show (tp : ℚ) + 0 + 0 = (tp : ℚ) by ring]
    exact div_self (by positivity)
  have hdice : 2 * (tp : ℚ) / ((tp : ℚ) + (tp : ℚ)) = 1 := by
    rw [show (tp : ℚ) + (tp : ℚ) = 2 * (tp : ℚ) by ring]
    exact div_self (by positivity)
  have hsens : (tp : ℚ) / ((tp : ℚ) + 0) = 1 := by
    rw [show (tp : ℚ) + 0 = (tp : ℚ) by ring]
    exact div_self (by positivity)
  have hspec : (tn : ℚ) / ((tn : ℚ) + 0) = 1 := by
    rw [show (tn : ℚ) + 0 = (tn : ℚ) by ring]
    exact div_self (by positivity)
  rw [hacc, hjac, hdice, hsens, hspec]
  rfl

/-- Claim C3 (amended): for every normalized mask grid holding at least one
positive (255) and at least one negative (0) sample, scoring the grid
against itself yields accuracy = jaccard = dice = sensitivity =
specificity = 1.0. -/
theorem claim_C3_self_score_ones (g : Grid)
    (hn : valuesSubset0255 g = true)
    (hpos : 255 ∈ g.flatten) (hneg : 0 ∈ g.flatten) :
    scoreP1Image g g = .ok
      [⟨"accuracy", 1⟩, ⟨"jaccard", 1⟩, ⟨"dice", 1⟩,
       ⟨"sensitivity", 1⟩, ⟨"specificity", 1⟩] :=
  scoreP1Image_self_ones g hn hpos hneg

/-- Witness for the amended claim C3 at the concrete normalized grid
`[[0], [255]]`. -/
theorem claim_C3_witness :
    valuesSubset0255 [[0], [255]] = true ∧
    scoreP1Image [[0], [255]] [[0], [255]] = .ok
      [⟨"accuracy", 1⟩, ⟨"jaccard", 1⟩, ⟨"dice", 1⟩,
       ⟨"sensitivity", 1⟩, ⟨"specificity", 1⟩] :=
  ⟨by decide, claim_C3_self_score_ones [[0], [255]]
    (by decide) (by decide) (by decide)⟩

/-- Binding a failed `Except` computation keeps the error. -/
lemma except_bind_err {ε α β : Type} (e : ε) (f : α → Except ε β) :
    ((Except.error e : Except ε α) >>= f) = .error e := rfl

/-- A successful `mapM` over `Except` maps each element through a function
agreeing on successes, elementwise. -/
lemma mapM_ok_map {ε α β γ : Type} (f : α → Except ε β) (g : β → γ) (pr : α → γ)
    (hf : ∀ a b, f a = .ok b → g b = pr a) :
    ∀ (l : List α) (ys : List β), l.mapM f = .ok ys → ys.map g = l.map pr := by
  intro l
  induction l with
  | nil =>
    intro ys h
    rw [List.mapM_nil] at h
    cases h
    rfl
  | cons a l ih =>
    intro ys h
    rw [List.mapM_cons] at h
    cases hfa : f a with
    | error e =>
      rw [hfa, except_bind_err] at h
      cases h
    | ok b =>
      rw [hfa, except_bind_ok] at h
      cases hl : l.mapM f with
      | error e =>
        rw [hl, except_bind_err] at h
        cases h
      | ok bs =>
        rw [hl, except_bind_ok] at h
        cases h
        simp only [List.map_cons]
        rw [hf a b hfa, ih bs hl]

/-- Counterexample to claim C4 as stated: `scoreP1` visits ground-truth
files in sorted *filename* order, which is not ascending *dataset* order.
With truth files `ISIC_1_Segmentation.png` and `ISIC_12_Segmentation.png`
(all masks `[[0], [255]]`), the filename sort puts
`ISIC_12_Segmentation.png` first (`'2' < '_'` in code points), so the
records come out as datasets `["ISIC_12", "ISIC_1"]` — and
`"ISIC_12" ≤ "ISIC_1"` is false in the code-point order, so the sequence is
not sorted ascending by dataset identifier. -/
theorem claim_C4_counterexample :
    scoreP1
        [("ISIC_1_Segmentation.png", [[0], [255]]),
         ("ISIC_12_Segmentation.png", [[0], [255]])]
        [("ISIC_12_x.png", [[0], [255]])]
      = .ok
        [⟨"ISIC_12", [⟨"accuracy", 1⟩, ⟨"jaccard", 1⟩, ⟨"dice", 1⟩,
           ⟨"sensitivity", 1⟩, ⟨"specificity", 1⟩]⟩,
         ⟨"ISIC_1", [⟨"accuracy", 1⟩, ⟨"jaccard", 1⟩, ⟨"dice", 1⟩,
           ⟨"sensitivity", 1⟩, ⟨"specificity", 1⟩]⟩] ∧
    lexLe "ISIC_12".data "ISIC_1".data = false := by
  have hself := scoreP1Image_self_ones [[0], [255]] (by decide) (by decide) (by decide)
  refine ⟨?_, by decide⟩
  unfold scoreP1
  rw [show sortByKey Prod.fst
        [("ISIC_1_Segmentation.png", ([[0], [255]] : Grid)),
         ("ISIC_12_Segmentation.png", [[0], [255]])]
      = [("ISIC_12_Segmentation.png", ([[0], [255]] : Grid)),
         ("ISIC_1_Segmentation.png", [[0], [255]])] from by decide]
  rw [List.mapM_cons, List.mapM_cons, List.mapM_nil]
  simp only [List.map_cons, List.map_nil]
  rw [show matchInputFile "ISIC_12_Segmentation.png" ["ISIC_12_x.png"]
      = .ok "ISIC_12_x.png" from rfl]
  rw [show matchInputFile "ISIC_1_Segmentation.png" ["ISIC_12_x.png"]
      = .ok "ISIC_12_x.png" from rfl]
  simp only [except_bind_ok]
  rw [show (([("ISIC_12_x.png", ([[0], [255]] : Grid))].find?
      (fun e => e.1 == "ISIC_12_x.png")).map Prod.snd).getD []
      = ([[0], [255]] : Grid) from rfl]
  rw [hself]
  simp only [except_bind_ok]
  rw [show rsplitDataset "ISIC_12_Segmentation.png" = "ISIC_12" from rfl,
    show rsplitDataset "ISIC_1_Segmentation.png" = "ISIC_1" from rfl]
  rfl

/-- Claim C4 (amended): `scoreP1` emits one record per ground-truth file in
ascending *filename* order (the dataset identifier is derived from the
filename afterwards, and the record sequence is not in general sorted by
it); `computeMetrics` emits the aggregate record first, then one record per
category in the canonical `CATEGORIES` order, the aggregate carrying the
single metric `balanced_accuracy` and every category record its eight
metrics in fixed order — for any implementation of the `metrics` module
interface. -/
theorem claim_C4_record_order (impl : MetricsImpl)
    (truthDir testDir : List (String × Grid)) (truthTable predictionTable : ProbTable)
    (p1scores p3scores : List ScoreRecord)
    (h1 : scoreP1 truthDir testDir = .ok p1scores)
    (h3 : computeMetricsWith impl truthTable predictionTable = .ok p3scores) :
    p1scores.map (fun r => r.dataset)
        = (sortByKey Prod.fst truthDir).map (fun e => rsplitDataset e.1) ∧
    p3scores.map (fun r => r.dataset) = "aggregate" :: CATEGORIES ∧
    (∀ r ∈ p3scores.take 1, r.metrics.map (fun mr => mr.name) = ["balanced_accuracy"]) ∧
    (∀ r ∈ p3scores.drop 1, r.metrics.map (fun mr => mr.name)
        = ["accuracy", "sensitivity", "specificity", "f1_score", "ppv", "npv",
           "auc", "auc_sens_80"]) := by
  have hB : p3scores =
      ⟨"aggregate", [⟨"balanced_accuracy",
          impl.balancedMulticlassAccuracy
            (sortRows (excludeRows truthTable EXCLUDE_LABELS))
            (sortRows (excludeRows predictionTable EXCLUDE_LABELS))⟩]⟩ ::
        CATEGORIES.enum.map (fun e =>
          let truthCategory := categoryColumn
            (sortRows (excludeRows truthTable EXCLUDE_LABELS)) e.1
          let predictionCategory := categoryColumn
            (sortRows (excludeRows predictionTable EXCLUDE_LABELS)) e.1
          let truthBinary := gtHalf truthCategory
          let predictionBinary := gtHalf predictionCategory
          ⟨e.2,
            [ ⟨"accuracy", impl.binaryAccuracy truthBinary predictionBinary⟩,
              ⟨"sensitivity", impl.binarySensitivity truthBinary predictionBinary⟩,
              ⟨"specificity", impl.binarySpecificity truthBinary predictionBinary⟩,
              ⟨"f1_score", impl.binaryF1 truthBinary predictionBinary⟩,
              ⟨"ppv", impl.binaryPpv truthBinary predictionBinary⟩,
              ⟨"npv", impl.binaryNpv truthBinary predictionBinary⟩,
              ⟨"auc", impl.auc truthCategory predictionCategory⟩,
              ⟨"auc_sens_80", impl.aucAboveSensitivity truthCategory
                predictionCategory (4 / 5)⟩ ]⟩) := by
    unfold computeMetricsWith at h3
    cases hv : validateRows (excludeRows truthTable EXCLUDE_LABELS)
        (excludeRows predictionTable EXCLUDE_LABELS) with
    | error e =>
      rw [hv, except_bind_err] at h3
      cases h3
    | ok u =>
      rw [hv, except_bind_ok] at h3
      cases h3
      rfl
  refine ⟨?_, ?_, ?_, ?_⟩
  · apply mapM_ok_map _ _ _ _ _ _ h1
    intro a b hab
    cases hm : matchInputFile a.1 (testDir.map Prod.fst) with
    | error e =>
      rw [hm, except_bind_err] at hab
      cases hab
    | ok testFile =>
      rw [hm, except_bind_ok] at hab
      cases hs : scoreP1Image a.2
          (((testDir.find? (fun e => e.1 == testFile)).map Prod.snd).getD []) with
      | error e =>
        rw [hs, except_bind_err] at hab
        cases hab
      | ok ms =>
        rw [hs, except_bind_ok] at hab
        cases hab
        rfl
  · subst hB
    simp only [List.map_cons, List.map_map]
    congr 1
  · subst hB
    intro r hr
    simp only [List.take_succ_cons, List.take_zero, List.mem_singleton] at hr
    subst hr
    rfl
  · subst hB
    intro r hr
    simp only [List.drop_succ_cons, List.drop_zero] at hr
    obtain ⟨e, _, rfl⟩ := List.mem_map.mp hr
    rfl

/-- Witness for the amended claim C4: concrete runs of both pipelines
(empty directories and tables, `constMetrics`), with the record order
conclusions instantiated. -/
theorem claim_C4_witness :
    scoreP1 ([] : List (String × Grid)) [] = .ok [] ∧
    computeMetricsWith constMetrics [] [] = .ok constScores ∧
    constScores.map (fun r => r.dataset) = "aggregate" :: CATEGORIES := by
  have h1 : scoreP1 ([] : List (String × Grid)) [] = .ok [] := rfl
  have h3 : computeMetricsWith constMetrics [] [] = .ok constScores := rfl
  exact ⟨h1, h3, (claim_C4_record_order constMetrics [] [] [] [] [] constScores h1 h3).2.1⟩

/-- Claim C7: when the ground-truth filename has a second `_`-separated
token, `matchInputFile` returns the first candidate in directory listing
order whose filename contains that token as a substring, and fails with the
no-match error exactly when no candidate filename contains it. -/
theorem claim_C7_match_rule (truthFile : String) (testDir : List String) (tid : String)
    (h : (pySplitUnderscore truthFile).get? 1 = some tid) :
    matchInputFile truthFile testDir =
      (match testDir.find? (fun f => strContains f tid) with
       | some f => .ok f
       | none => .error .noMatch) ∧
    (matchInputFile truthFile testDir = .error .noMatch ↔
      ∀ f ∈ testDir, strContains f tid = false) := by
  have hmain : matchInputFile truthFile testDir =
      (match testDir.find? (fun f => strContains f tid) with
       | some f => .ok f
       | none => .error .noMatch) := by
    induction testDir with
    | nil => rfl
    | cons t rest ih =>
      unfold matchInputFile
      rw [h]
      dsimp only
      cases hc : strContains t tid
      · rw [@List.find?_cons_of_neg _ (fun f => strContains f tid) t rest (by simp [hc])]
        simp only [Bool.false_eq_true, if_false]
        exact ih
      · rw [@List.find?_cons_of_pos _ (fun f => strContains f tid) t rest hc]
        simp
  refine ⟨hmain, ?_⟩
  rw [hmain]
  cases hf : testDir.find? (fun f => strContains f tid) with
  | none =>
    constructor
    · intro _ f hfm
      have := List.find?_eq_none.mp hf f hfm
      simpa using this
    · intro _
      rfl
  | some f =>
    constructor
    · intro hcontra
      cases hcontra
    · intro hall
      have hmem := List.mem_of_find?_eq_some hf
      have hp := List.find?_some hf
      rw [hall f hmem] at hp
      cases hp

/-- Witness for claim C7 at a concrete ground-truth filename (identifier
token `0000003`) against concrete directory listings, in both the matching
and the no-match case. -/
theorem claim_C7_witness :
    (pySplitUnderscore "ISIC_0000003_Segmentation.png").get? 1 = some "0000003" ∧
    matchInputFile "ISIC_0000003_Segmentation.png" ["foo.png", "ISIC_0000003_x.png"]
      = .ok "ISIC_0000003_x.png" ∧
    (matchInputFile "ISIC_0000003_Segmentation.png" ["foo.png"] = .error .noMatch ↔
      ∀ f ∈ ["foo.png"], strContains f "0000003" = false) := by
  have h : (pySplitUnderscore "ISIC_0000003_Segmentation.png").get? 1
      = some "0000003" := by decide
  refine ⟨h, ?_, (claim_C7_match_rule _ ["foo.png"] _ h).2⟩
  rw [(claim_C7_match_rule "ISIC_0000003_Segmentation.png"
    ["foo.png", "ISIC_0000003_x.png"] "0000003" h).1]
  rfl

/-- Claim C2: a table returned by `parseCsv` satisfies the Probability
Table invariant — exactly the seven label columns in the canonical
`CATEGORIES` order, every cell a floating-point value in `[0, 1]`, no
missing cell, and pairwise-distinct row keys. -/
theorem claim_C2_parse_invariant (raw : RawFrame) (t : Frame)
    (h : parseCsv raw = .ok t) :
    t.columns = CATEGORIES ∧
    t.index.Nodup ∧
    (∀ row ∈ t.data, row.length = CATEGORIES.length) ∧
    (∀ row ∈ t.data, ∀ c ∈ row, ∃ q, c = Cell.num q ∧ 0 ≤ q ∧ q ≤ 1) := by
  unfold parseCsv at h
  dsimp only at h
  split at h
  · cases h
  · split at h
    · cases h
    · split at h
      · cases h
      · split at h
        · cases h
        · split at h
          · cases h
          · split at h
            · cases h
            · split at h
              · cases h
              · rename_i himg hdup hmiss hextra hna htext hrange
                cases h
                refine ⟨rfl, not_not.mp hdup, ?_, ?_⟩
                · intro row hrow
                  obtain ⟨r, _, rfl⟩ := List.mem_map.mp hrow
                  exact List.length_map _ _
                · intro row hrow c hc
                  have hcna : c.isNa = false := by
                    by_contra hcontra
                    exact hna (List.any_eq_true.mpr ⟨row, hrow,
                      List.any_eq_true.mpr ⟨c, hc, by simpa using hcontra⟩⟩)
                  have hctext : c.isText = false := by
                    by_contra hcontra
                    exact htext (List.any_eq_true.mpr ⟨row, hrow,
                      List.any_eq_true.mpr ⟨c, hc, by simpa using hcontra⟩⟩)
                  have hcrange : c.outOfRange = false := by
                    by_contra hcontra
                    exact hrange (List.any_eq_true.mpr ⟨row, hrow,
                      List.any_eq_true.mpr ⟨c, hc, by simpa using hcontra⟩⟩)
                  cases c with
                  | na => cases hcna
                  | text s => cases hctext
                  | num q =>
                    refine ⟨q, rfl, ?_, ?_⟩ <;>
                    · have := of_decide_eq_false hcrange
                      push_neg at this
                      first
                      | exact this.1
                      | exact this.2

/-- Witness for claim C2: a concrete frame with the `NV` and `MEL` columns
swapped on input parses successfully into the canonical column order with
the invariant holding. -/
theorem claim_C2_witness :
    parseCsv
        ⟨["image", "NV", "MEL", "BCC", "AKIEC", "BKL", "DF", "VASC"],
         [[.text "ISIC_1", .num 1, .num 0, .num 0, .num 0, .num 0, .num 0, .num 0]]⟩
      = .ok ⟨[.text "ISIC_1"], CATEGORIES,
          [[.num 0, .num 1, .num 0, .num 0, .num 0, .num 0, .num 0]]⟩ ∧
    ([.text "ISIC_1"] : List Cell).Nodup ∧
    (∀ row ∈ [[Cell.num 0, .num 1, .num 0, .num 0, .num 0, .num 0, .num 0]],
      ∀ c ∈ row, ∃ q, c = Cell.num q ∧ 0 ≤ q ∧ q ≤ 1) := by
  have h : parseCsv
      ⟨["image", "NV", "MEL", "BCC", "AKIEC", "BKL", "DF", "VASC"],
       [[.text "ISIC_1", .num 1, .num 0, .num 0, .num 0, .num 0, .num 0, .num 0]]⟩
      = .ok ⟨[.text "ISIC_1"], CATEGORIES,
          [[.num 0, .num 1, .num 0, .num 0, .num 0, .num 0, .num 0]]⟩ := by
    unfold parseCsv
    rw [if_neg (by decide), if_neg (by decide), if_neg (by decide),
      if_neg (by decide), if_neg (by decide), if_neg (by decide),
      if_neg (by decide)]
    rfl
  have hinv := claim_C2_parse_invariant _ _ h
  exact ⟨h, hinv.2.1, hinv.2.2.2⟩

/-- Counterexample to claim C8 as stated: a table with duplicate row keys
does fail at parse time, but the failure is the underlying pandas
`ValueError` raised by `set_index(..., verify_integrity=True)`, not an
instance of the reportable exception kind (`ScoreException`). -/
theorem claim_C8_counterexample :
    parseCsv
        ⟨["image", "MEL", "NV", "BCC", "AKIEC", "BKL", "DF", "VASC"],
         [[.text "ISIC_1", .num 0, .num 0, .num 0, .num 0, .num 0, .num 0, .num 0],
          [.text "ISIC_1", .num 1, .num 0, .num 0, .num 0, .num 0, .num 0, .num 0]]⟩
      = .error (.pandasValueError "Index has duplicate keys.") ∧
    CsvError.isScore (.pandasValueError "Index has duplicate keys.") = false := by
  constructor
  · unfold parseCsv
    rw [if_neg (by decide), if_pos (by decide)]
  · rfl

/-- `throw` in the `Except` monad is the error constructor. -/
lemma except_throw {ε α : Type} (e : ε) :
    (throw e : Except ε α) = Except.error e := rfl

/-- `pure` in the `Except` monad is the success constructor. -/
lemma except_pure {ε α : Type} (a : α) :
    (pure a : Except ε α) = Except.ok a := rfl

/-- A failed `mapM` over `Except` fails at some element. -/
lemma mapM_error_exists {ε α β : Type} (f : α → Except ε β) :
    ∀ (l : List α) (e : ε), l.mapM f = .error e → ∃ a ∈ l, f a = .error e := by
  intro l
  induction l with
  | nil =>
    intro e h
    rw [List.mapM_nil, except_pure] at h
    cases h
  | cons a l ih =>
    intro e h
    rw [List.mapM_cons] at h
    cases hfa : f a with
    | error e1 =>
      rw [hfa, except_bind_err] at h
      cases h
      exact ⟨a, by simp, hfa⟩
    | ok b =>
      rw [hfa, except_bind_ok] at h
      cases hl : l.mapM f with
      | error e1 =>
        rw [hl, except_bind_err] at h
        cases h
        obtain ⟨x, hx, hfx⟩ := ih _ hl
        exact ⟨x, by simp [hx], hfx⟩
      | ok bs =>
        rw [hl, except_bind_ok, except_pure] at h
        cases h

/-- Claim C8 (amended): every validation failure raised by the engine — the
value-domain, shape-mismatch and no-match failures of the segmentation
pipeline, and the schema, value and row-alignment failures of the
classification pipeline — is the single reportable exception kind carrying
a human-readable message (`ScoreException` in `task3.py`; the explicitly
raised message-carrying `Exception` in `scoreP1.py`), with the one
exception the counterexample forces: a table whose row keys are not unique
still fails at parse time, but with the underlying library's
duplicate-index `ValueError` instead of the reportable kind.  The only
other errors either pipeline can produce are not validation failures but
implicit interpreter raises: `ZeroDivisionError` on a zero metric
denominator and `IndexError` on a truth filename with no second
`_`-token. -/
theorem claim_C8_error_kind :
    (∀ raw e, parseCsv raw = .error e →
      e.isScore = true ∨ e = .pandasValueError "Index has duplicate keys.") ∧
    (∀ truthProbabilities predictionProbabilities e,
      validateRows truthProbabilities predictionProbabilities = .error e →
      e.isScore = true) ∧
    (∀ (impl : MetricsImpl) truthTable predictionTable e,
      computeMetricsWith impl truthTable predictionTable = .error e →
      e.isScore = true) ∧
    (∀ truthFile testDir e, matchInputFile truthFile testDir = .error e →
      e.isReportable = true ∨ e = .indexError) ∧
    (∀ g e, loadImage g = .error e → e.isReportable = true) ∧
    (∀ truthImage testImage e, scoreP1Image truthImage testImage = .error e →
      e.isReportable = true ∨ e = .zeroDivision) ∧
    (∀ truthDir testDir e, scoreP1 truthDir testDir = .error e →
      e.isReportable = true ∨ e = .zeroDivision ∨ e = .indexError) ∧
    (∀ raw, raw.columns.contains "image" = true →
      ¬ (raw.rows.map (cellAt (raw.columns.indexOf "image"))).Nodup →
      parseCsv raw = .error (.pandasValueError "Index has duplicate keys.")) := by
  have hparse : ∀ raw e, parseCsv raw = .error e →
      e.isScore = true ∨ e = .pandasValueError "Index has duplicate keys." := by
    intro raw e he
    unfold parseCsv at he
    dsimp only at he
    split at he
    · cases he
      exact Or.inl rfl
    · split at he
      · cases he
        exact Or.inr rfl
      · split at he
        · cases he
          exact Or.inl rfl
        · split at he
          · cases he
            exact Or.inl rfl
          · split at he
            · cases he
              exact Or.inl rfl
            · split at he
              · cases he
                exact Or.inl rfl
              · split at he
                · cases he
                  exact Or.inl rfl
                · cases he
  have hvalidate : ∀ truthProbabilities predictionProbabilities e,
      validateRows truthProbabilities predictionProbabilities = .error e →
      e.isScore = true := by
    intro t p e h
    unfold validateRows at h
    dsimp only at h
    split at h
    · cases h
      rfl
    · split at h
      · cases h
        rfl
      · cases h
  have hcompute : ∀ (impl : MetricsImpl) truthTable predictionTable e,
      computeMetricsWith impl truthTable predictionTable = .error e →
      e.isScore = true := by
    intro impl t p e h
    unfold computeMetricsWith at h
    cases hv : validateRows (excludeRows t EXCLUDE_LABELS)
        (excludeRows p EXCLUDE_LABELS) with
    | error e1 =>
      rw [hv, except_bind_err] at h
      cases h
      exact hvalidate _ _ _ hv
    | ok u =>
      rw [hv, except_bind_ok, except_pure] at h
      cases h
  have hmatch : ∀ truthFile testDir e, matchInputFile truthFile testDir = .error e →
      e.isReportable = true ∨ e = .indexError := by
    intro truthFile testDir
    induction testDir with
    | nil =>
      intro e h
      cases h
      exact Or.inl rfl
    | cons t rest ih =>
      intro e h
      unfold matchInputFile at h
      split at h
      · cases h
        exact Or.inr rfl
      · split at h
        · cases h
        · exact ih e h
  have hload : ∀ g e, loadImage g = .error e → e.isReportable = true := by
    intro g e h
    unfold loadImage at h
    split at h
    · cases h
    · split at h
      · split at h
        · dsimp only at h
          split at h
          · cases h
            rfl
          · cases h
        · cases h
          rfl
      · cases h
        rfl
  have hscoreimg : ∀ truthImage testImage e,
      scoreP1Image truthImage testImage = .error e →
      e.isReportable = true ∨ e = .zeroDivision := by
    intro ti ui e h
    unfold scoreP1Image at h
    cases hlt : loadImage ti with
    | error e1 =>
      rw [hlt, except_bind_err] at h
      cases h
      exact Or.inl (hload ti _ hlt)
    | ok truthImage =>
      rw [hlt, except_bind_ok] at h
      cases hlu : loadImage ui with
      | error e2 =>
        rw [hlu, except_bind_err] at h
        cases h
        exact Or.inl (hload ui _ hlu)
      | ok testImage =>
        rw [hlu, except_bind_ok] at h
        by_cases hsh : shape testImage ≠ shape truthImage
        · rw [if_pos hsh, except_throw] at h
          cases h
          exact Or.inl rfl
        · rw [if_neg hsh] at h
          rcases hcc : confusionCounts truthImage testImage with ⟨tp, tn, fp, fn⟩
          rw [hcc] at h
          dsimp only at h
          by_cases h1 : ((tp : ℚ) + (tn : ℚ) + (fp : ℚ) + (fn : ℚ) = 0)
          · rw [if_pos h1, except_throw] at h
            cases h
            exact Or.inr rfl
          · rw [if_neg h1] at h
            by_cases h2 : ((tp : ℚ) + (fn : ℚ) + (fp : ℚ) = 0)
            · rw [if_pos h2, except_throw] at h
              cases h
              exact Or.inr rfl
            · rw [if_neg h2] at h
              by_cases h3 : ((pixelSum truthImage : ℚ) + (pixelSum testImage : ℚ) = 0)
              · rw [if_pos h3, except_throw] at h
                cases h
                exact Or.inr rfl
              · rw [if_neg h3] at h
                by_cases h4 : ((tp : ℚ) + (fn : ℚ) = 0)
                · rw [if_pos h4, except_throw] at h
                  cases h
                  exact Or.inr rfl
                · rw [if_neg h4] at h
                  by_cases h5 : ((tn : ℚ) + (fp : ℚ) = 0)
                  · rw [if_pos h5, except_throw] at h
                    cases h
                    exact Or.inr rfl
                  · rw [if_neg h5, except_pure] at h
                    cases h
  refine ⟨hparse, hvalidate, hcompute, hmatch, hload, hscoreimg, ?_, ?_⟩
  · intro truthDir testDir e h
    unfold scoreP1 at h
    obtain ⟨a, _, hfa⟩ := mapM_error_exists _ _ _ h
    cases hm : matchInputFile a.1 (testDir.map Prod.fst) with
    | error e1 =>
      rw [hm, except_bind_err] at hfa
      cases hfa
      rcases hmatch _ _ _ hm with hr | hi
      · exact Or.inl hr
      · exact Or.inr (Or.inr hi)
    | ok testFile =>
      rw [hm, except_bind_ok] at hfa
      cases hs : scoreP1Image a.2
          (((testDir.find? (fun x => x.1 == testFile)).map Prod.snd).getD []) with
      | error e2 =>
        rw [hs, except_bind_err] at hfa
        cases hfa
        rcases hscoreimg _ _ _ hs with hr | hz
        · exact Or.inl hr
        · exact Or.inr (Or.inl hz)
      | ok ms =>
        rw [hs, except_bind_ok, except_pure] at hfa
        cases hfa
  · intro raw h1 h2
    have hmem : "image" ∈ raw.columns := by simpa using h1
    unfold parseCsv
    rw [if_neg (by simp [hmem]), if_pos h2]

/-- Witness for the amended claim C8: a concrete failure of every engine
component — a missing-label schema failure and a row-alignment failure
(also surfaced through `computeMetrics`) on the classification side, all
reportable; a value-domain failure, a shape mismatch and a no-match on the
segmentation side, all reportable; the interpreter-raised index error on a
truth filename with no second token; and the duplicate-key frame failing at
parse time with the non-reportable library error. -/
theorem claim_C8_witness :
    (parseCsv ⟨["image"], [[.text "a"]]⟩ = .error (.score "Missing columns in CSV.") ∧
      ((CsvError.score "Missing columns in CSV.").isScore = true ∨
        CsvError.score "Missing columns in CSV."
          = .pandasValueError "Index has duplicate keys.")) ∧
    (validateRows [("A", [])] [] = .error (.score "Missing images in CSV.") ∧
      (CsvError.score "Missing images in CSV.").isScore = true) ∧
    (computeMetricsWith constMetrics [("A", [])] []
        = .error (.score "Missing images in CSV.") ∧
      (CsvError.score "Missing images in CSV.").isScore = true) ∧
    (matchInputFile "nounderscore" ["a.png"] = .error .indexError ∧
      (P1Error.indexError.isReportable = true ∨ P1Error.indexError = .indexError)) ∧
    (loadImage [[1, 2, 3]] = .error .valueDomain ∧
      P1Error.valueDomain.isReportable = true) ∧
    (scoreP1Image [[0]] [[0], [0]] = .error .shapeMismatch ∧
      (P1Error.shapeMismatch.isReportable = true ∨
        P1Error.shapeMismatch = .zeroDivision)) ∧
    (scoreP1 [("x_y_z.png", [[0]])] [] = .error .noMatch ∧
      (P1Error.noMatch.isReportable = true ∨ P1Error.noMatch = .zeroDivision ∨
        P1Error.noMatch = .indexError)) ∧
    parseCsv ⟨["image"], [[.text "a"], [.text "a"]]⟩
      = .error (.pandasValueError "Index has duplicate keys.") := by
  have hp : parseCsv ⟨["image"], [[.text "a"]]⟩
      = .error (.score "Missing columns in CSV.") := by
    unfold parseCsv
    rw [if_neg (by decide), if_neg (by decide), if_pos (by decide)]
  have hv : validateRows [("A", [])] [] = .error (.score "Missing images in CSV.") := rfl
  have hc : computeMetricsWith constMetrics [("A", [])] []
      = .error (.score "Missing images in CSV.") := rfl
  have hm : matchInputFile "nounderscore" ["a.png"] = .error .indexError := rfl
  have hl : loadImage [[1, 2, 3]] = .error .valueDomain := rfl
  have hs : scoreP1Image [[0]] [[0], [0]] = .error .shapeMismatch := rfl
  have hsp : scoreP1 [("x_y_z.png", [[0]])] [] = .error .noMatch := rfl
  exact ⟨⟨hp, claim_C8_error_kind.1 _ _ hp⟩,
    ⟨hv, claim_C8_error_kind.2.1 _ _ _ hv⟩,
    ⟨hc, claim_C8_error_kind.2.2.1 constMetrics _ _ _ hc⟩,
    ⟨hm, claim_C8_error_kind.2.2.2.1 _ _ _ hm⟩,
    ⟨hl, claim_C8_error_kind.2.2.2.2.1 _ _ hl⟩,
    ⟨hs, claim_C8_error_kind.2.2.2.2.2.1 _ _ _ hs⟩,
    ⟨hsp, claim_C8_error_kind.2.2.2.2.2.2.1 _ _ _ hsp⟩,
    claim_C8_error_kind.2.2.2.2.2.2.2 ⟨["image"], [[.text "a"], [.text "a"]]⟩
      (by decide) (by decide)⟩

/-- Claim C10: `computeMetrics` depends only on table rows whose identifier
differs from the hardcoded excluded identifier `ISIC_0035068` — two pairs
of parsed tables agreeing on all other rows produce identical score lists
and identical errors, for any implementation of the `metrics` module
interface, regardless of whether the excluded row is present, absent, or
carries different probabilities. -/
theorem claim_C10_exclusion_independence (impl : MetricsImpl)
    (truth1 prediction1 truth2 prediction2 : ProbTable)
    (ht : truth1.filter (fun r => decide (r.1 ≠ "ISIC_0035068"))
        = truth2.filter (fun r => decide (r.1 ≠ "ISIC_0035068")))
    (hp : prediction1.filter (fun r => decide (r.1 ≠ "ISIC_0035068"))
        = prediction2.filter (fun r => decide (r.1 ≠ "ISIC_0035068"))) :
    computeMetricsWith impl truth1 prediction1
      = computeMetricsWith impl truth2 prediction2 := by
  have hex : ∀ t : ProbTable, excludeRows t EXCLUDE_LABELS
      = t.filter (fun r => decide (r.1 ≠ "ISIC_0035068")) := by
    intro t
    unfold excludeRows EXCLUDE_LABELS
    apply List.filter_congr
    intro r _
    by_cases hr : r.1 = "ISIC_0035068"
    · simp [hr]
    · simp [hr]
  have h1 : excludeRows truth1 EXCLUDE_LABELS = excludeRows truth2 EXCLUDE_LABELS := by
    rw [hex, hex, ht]
  have h2 : excludeRows prediction1 EXCLUDE_LABELS
      = excludeRows prediction2 EXCLUDE_LABELS := by
    rw [hex, hex, hp]
  unfold computeMetricsWith
  rw [h1, h2]

/-- Witness for claim C10 under `specMetrics`: the excluded row is present
with some probabilities in the first truth table, absent from the second,
absent from the first prediction table, and present with different
probabilities in the second — the score lists coincide. -/
theorem claim_C10_witness :
    computeMetricsWith specMetrics
        [("ISIC_0035068", [1, 0, 0, 0, 0, 0, 0]), ("ISIC_1", [0, 1, 0, 0, 0, 0, 0])]
        [("ISIC_1", [0, 1, 0, 0, 0, 0, 0])]
      = computeMetricsWith specMetrics
        [("ISIC_1", [0, 1, 0, 0, 0, 0, 0])]
        [("ISIC_1", [0, 1, 0, 0, 0, 0, 0]), ("ISIC_0035068", [0, 0, 0, 1, 0, 0, 0])] :=
  claim_C10_exclusion_independence specMetrics _ _ _ _ rfl rfl

end ISIC
